import Mathlib

/-!
# Order placement (`POST /orders`) of the Klypto backend

A state-passing model of the handler registered by `app.post('/orders', ...)`
in `src/index.js` (lines 251-296), together with the three document-store
calls it makes (`insertOne`, `updateOne` with `$inc`, `deleteMany`).

Modelling decisions, all visible in the definitions below:

* the three collections and the driver's identifier generator form an explicit
  `Store`; every operation returns the store it leaves behind next to its
  result, so that effects made before an exception survive it, as they do in
  the source (there is no transaction and no rollback);
* an exception is a value `Except.error msg`; the `try { ... } catch (err)`
  block turns any of them into the 500 response;
* whether a store call throws is decided by the environment (`Faults`); a call
  that throws leaves its collection untouched;
* `orderData.cart` is any JSON value (`Cart`): falsy, an array, or a truthy value
  that is not an array, described by what the handler can observe of it
  (whether its `length` is 0, and what `for...of` does with it); an element of
  the cart is `null` or a value whose properties can be read (`CartElem`);
* numbers are integers (`Int`): stock, quantities and money amounts; the
  `quantity` of a line item is either absent/null (`none`) or an integer;
* the outcome of `new ObjectId(item._id)` is recorded in the line item itself
  (`RawId`): either the key it denotes, or the fact that the constructor throws.
-/

namespace Klypto

/-- Keys of stored documents (the driver's `ObjectId`). -/
abbrev ObjectId := Nat

/-- Unstructured pass-through values (`billingInfo`, `shippingInfo`, `paymentInfo`). -/
abbrev Blob := String

/-- The client-supplied `_id` of a line item, classified by what `new ObjectId(_id)`
does with it: it yields the key `k`, or it throws. (An absent `_id` makes the
constructor return a fresh key, which denotes no stored product: that is
`valid k` for a key `k` absent from the product collection.) -/
inductive RawId where
  | valid (k : ObjectId)
  | invalid
  deriving DecidableEq, Repr

/-- A cart element whose properties can be read: an object, or a primitive
(whose `_id` and `quantity` read as `undefined`). `quantity` is `none` when the
field is absent or `null`, and an integer otherwise; `name` and `price` stand
for the other line fields, which the handler stores and never reads. -/
structure LineItem where
  _id : RawId
  quantity : Option Int
  name : String
  price : Int
  deriving DecidableEq, Repr

/-- One value yielded by `for (const item of orderData.cart)`: `null`, on which
reading `item._id` throws a `TypeError`, or a line item. -/
inductive CartElem where
  | null
  | item (li : LineItem)
  deriving DecidableEq, Repr

/-- The JSON value `orderData.cart`, by what the handler can observe of it.

* `falsy`: the field is absent, or `null`, `false`, `0` or `""`: `!cart` holds;
* `array elems`: a JSON array;
* `nonArray lengthIsZero yields`: any other value, all of them truthy.
  `lengthIsZero` tells whether `cart.length === 0` (true for an object such as
  `{"length": 0}`, false for `{}`, `5`, `true`, a non-empty string, ...), and
  `yields` is what `for...of` does with it: `none` when the value cannot be
  iterated (an object, a number, `true`: a `TypeError` is thrown), `some elems`
  when it can (a non-empty string yields its characters, primitives without
  `_id` and `quantity`). -/
inductive Cart where
  | falsy
  | array (elems : List CartElem)
  | nonArray (lengthIsZero : Bool) (yields : Option (List CartElem))
  deriving DecidableEq, Repr

/-- The request body `req.body` of `POST /orders`; `userEmail` is a string or is
absent (`none`). -/
structure OrderRequest where
  userEmail : Option String
  cart : Cart
  subtotal : Int
  shippingCost : Int
  total : Int
  billingInfo : Blob
  shippingInfo : Blob
  paymentInfo : Blob
  deriving DecidableEq, Repr

/-- A document of the `orders` collection: `orderDoc` plus the generated `_id`. -/
structure OrderDoc where
  _id : ObjectId
  userEmail : String
  cart : Cart
  subtotal : Int
  shippingCost : Int
  total : Int
  billingInfo : Blob
  shippingInfo : Blob
  paymentInfo : Blob
  createdAt : Nat
  deriving DecidableEq, Repr

/-- A document of the `products` collection (the fields this workflow can observe).
The `stock` is a number, as the data model has it; what `$inc` does to a product
whose `stock` is missing or not a number is outside this model. -/
structure Product where
  name : String
  stock : Int
  deriving DecidableEq, Repr

/-- A document of the `carts` collection. -/
structure CartEntry where
  _id : ObjectId
  email : String
  name : String
  quantity : Int
  deriving DecidableEq, Repr

/-- The three collections the handler touches, and the next identifier the driver
will generate for an inserted document. Products are addressed by their key. -/
structure Store where
  orders : List OrderDoc
  products : ObjectId → Option Product
  carts : List CartEntry
  nextObjectId : ObjectId

/-- Which store calls of one request throw, and with which message:
`insertOne` on the orders, `updateOne i` on the stock update of line item `i`
(counted from 0), `deleteMany` on the carts. `none` means the call succeeds. -/
structure Faults where
  insertOne : Option String
  updateOne : Nat → Option String
  deleteMany : Option String

/-- What the handler takes from its surroundings: the clock read by `new Date()`
and the behaviour of the store. -/
structure Env where
  now : Nat
  faults : Faults

/-- The HTTP answer: status code and the fields of the JSON body. -/
structure Response where
  status : Nat
  message : String
  orderId : Option ObjectId
  error : Option String
  deriving DecidableEq, Repr

/-- The environment in which no store call throws. -/
def Faults.never : Faults :=
  { insertOne := none, updateOne := fun _ => none, deleteMany := none }

/-- The message carried by the error of the `ObjectId` constructor. -/
def objectIdError : String :=
  "input must be a 24 character hex string, 12 byte Uint8Array, or an integer"

/-- `new ObjectId(item._id)` (line 277). -/
def newObjectId : RawId → Except String ObjectId
  | .valid k => .ok k
  | .invalid => .error objectIdError

/-- The message of the `TypeError` thrown by `for...of` on a value that cannot be iterated. -/
def notIterableError : String := "orderData.cart is not iterable"

/-- The message of the `TypeError` thrown by reading `item._id` when `item` is `null`. -/
def nullItemError : String := "Cannot read properties of null (reading _id)"

/-- `!orderData.cart` (line 256). -/
def Cart.isFalsy : Cart → Bool
  | .falsy => true
  | .array _ => false
  | .nonArray _ _ => false

/-- `orderData.cart.length === 0` (line 256), evaluated on a truthy cart only. -/
def Cart.lengthIsZero : Cart → Bool
  | .falsy => false
  | .array elems => decide (elems.length = 0)
  | .nonArray z _ => z

/-- What `for (const item of orderData.cart)` (line 276) iterates over: the
elements in order, or the `TypeError` thrown when the value cannot be iterated. -/
def Cart.iterate : Cart → Except String (List CartElem)
  | .falsy => .error notIterableError
  | .array elems => .ok elems
  | .nonArray _ (some elems) => .ok elems
  | .nonArray _ none => .error notIterableError

/-- `item.quantity || 1` (line 280): `undefined`, `null` and `0` are falsy. -/
def quantityOr1 : Option Int → Int
  | none => 1
  | some q => if q = 0 then 1 else q

/-- `ordersCollection.insertOne(orderDoc)` (line 273): the driver generates the
`_id`, the document is appended, the generated `_id` is the result. -/
def insertOne (fault : Option String) (doc : ObjectId → OrderDoc) (s : Store) :
    Store × Except String ObjectId :=
  match fault with
  | some e => (s, .error e)
  | none =>
    ({ s with orders := s.orders ++ [doc s.nextObjectId],
              nextObjectId := s.nextObjectId + 1 },
     .ok s.nextObjectId)

/-- `productCollection.updateOne({ _id: productId }, { $inc: { stock: delta } })`
(lines 278-281): the document with that key, if there is one, has `delta` added
to its `stock`; matching nothing is not an error. -/
def updateOne (fault : Option String) (productId : ObjectId) (delta : Int) (s : Store) :
    Store × Except String Unit :=
  match fault with
  | some e => (s, .error e)
  | none =>
    ({ s with products := fun k =>
        if k = productId then
          (s.products k).map (fun p => { p with stock := p.stock + delta })
        else s.products k },
     .ok ())

/-- `cartCollection.deleteMany({ email })` (line 285). -/
def deleteMany (fault : Option String) (email : String) (s : Store) :
    Store × Except String Unit :=
  match fault with
  | some e => (s, .error e)
  | none => ({ s with carts := s.carts.filter (fun c => decide (c.email ≠ email)) }, .ok ())

/-- The body of the loop `for (const item of orderData.cart) { ... }` (lines
276-282) run over the values the cart yields, from the one of index `i` on. The
first exception ends the loop. -/
def updateStock (faults : Faults) : Nat → List CartElem → Store → Store × Except String Unit
  | _, [], s => (s, .ok ())
  | i, item :: rest, s =>
    match item with
    | .null => (s, .error nullItemError)
    | .item li =>
      match newObjectId li._id with
      | .error e => (s, .error e)
      | .ok productId =>
        match updateOne (faults.updateOne i) productId (-(quantityOr1 li.quantity)) s with
        | (s1, .error e) => (s1, .error e)
        | (s1, .ok _) => updateStock faults (i + 1) rest s1

/-- `orderData.userEmail` once it is known to be a string. -/
def OrderRequest.buyer (req : OrderRequest) : String := req.userEmail.getD ""

/-- The validation condition of line 256:
`!orderData.userEmail || !orderData.cart || orderData.cart.length === 0`. -/
def OrderRequest.isInvalid (req : OrderRequest) : Bool :=
  (match req.userEmail with
   | none => true
   | some e => decide (e = ""))
  || req.cart.isFalsy
  || req.cart.lengthIsZero

/-- The object literal `orderDoc` (lines 261-271), given the `_id` the driver adds. -/
def orderDoc (env : Env) (req : OrderRequest) (id : ObjectId) : OrderDoc :=
  { _id := id
    userEmail := req.buyer
    cart := req.cart
    subtotal := req.subtotal
    shippingCost := req.shippingCost
    total := req.total
    billingInfo := req.billingInfo
    shippingInfo := req.shippingInfo
    paymentInfo := req.paymentInfo
    createdAt := env.now }

/-- `res.status(400).send({ message: "Invalid order data" })`. -/
def invalidOrder : Response :=
  { status := 400, message := "Invalid order data", orderId := none, error := none }

/-- `res.status(201).send({ message: "Order placed successfully", orderId })`. -/
def orderPlaced (id : ObjectId) : Response :=
  { status := 201, message := "Order placed successfully", orderId := some id, error := none }

/-- `res.status(500).send({ message: "Server error", error: err.message })`. -/
def serverError (e : String) : Response :=
  { status := 500, message := "Server error", orderId := none, error := some e }

/-- The handler of `POST /orders` (lines 251-296): the store it leaves and its answer. -/
def placeOrder (env : Env) (req : OrderRequest) (s : Store) : Store × Response :=
  if req.isInvalid then (s, invalidOrder)
  else
    match insertOne env.faults.insertOne (orderDoc env req) s with
    | (s1, .error e) => (s1, serverError e)
    | (s1, .ok insertedId) =>
      match req.cart.iterate with
      | .error e => (s1, serverError e)
      | .ok items =>
        match updateStock env.faults 0 items s1 with
        | (s2, .error e) => (s2, serverError e)
        | (s2, .ok _) =>
          match deleteMany env.faults.deleteMany req.buyer s2 with
          | (s3, .error e) => (s3, serverError e)
          | (s3, .ok _) => (s3, orderPlaced insertedId)

/-! ## Vocabulary of the statements -/

/-- The values the cart holds, in order: what iterating it yields, and nothing
for a value that cannot be iterated. -/
def Cart.elems : Cart → List CartElem
  | .falsy => []
  | .array elems => elems
  | .nonArray _ (some elems) => elems
  | .nonArray _ none => []

/-- The cart can be iterated: `for...of` does not throw on it. -/
def Cart.iterable : Cart → Bool
  | .falsy => false
  | .array _ => true
  | .nonArray _ (some _) => true
  | .nonArray _ none => false

/-- The elements of the request's cart. -/
def OrderRequest.items (req : OrderRequest) : List CartElem := req.cart.elems

/-- `new ObjectId(item._id)` does not throw on this element: it is a line item
(not `null`) whose `_id` the constructor accepts. -/
def CartElem.accepted : CartElem → Bool
  | .null => false
  | .item li => decide (li._id ≠ RawId.invalid)

/-- The element as a line item, when it is one. -/
def CartElem.lineItem? : CartElem → Option LineItem
  | .null => none
  | .item li => some li

/-- No store call of the request throws: the insert, the stock update of each
line item, the cart deletion. -/
def NoStoreFailure (f : Faults) (items : List CartElem) : Prop :=
  f.insertOne = none ∧ (∀ i, i < items.length → f.updateOne i = none) ∧ f.deleteMany = none

/-- Every element is a line item whose `_id` the `ObjectId` constructor accepts. -/
def Convertible (items : List CartElem) : Prop :=
  ∀ el ∈ items, el.accepted = true

/-- The quantity a line item asks for: its `quantity`, or 1 when that is
unspecified or falsy. Written from the words of the specification. -/
def effectiveQuantity (li : LineItem) : Int :=
  match li.quantity with
  | none => 1
  | some q => if q = 0 then 1 else q

/-- The sum of the effective quantities of the line items that reference the
product `pid`. Written from the words of the specification. -/
def orderedQuantity (pid : ObjectId) (items : List CartElem) : Int :=
  (((items.filterMap CartElem.lineItem?).filter
      (fun li => decide (li._id = RawId.valid pid))).map effectiveQuantity).sum

/-- The elements the loop gets through when no store call throws: those before
the first one on which `new ObjectId(item._id)` throws. -/
def reached : List CartElem → List CartElem
  | [] => []
  | el :: rest => if el.accepted then el :: reached rest else []

/-- The product `p` with its stock lowered by `d`, its other fields kept. -/
def lowerStock (d : Int) (p : Product) : Product :=
  { p with stock := p.stock - d }

/-- The store `s` with the stock of every product `k` lowered by `d k`. -/
def decStock (d : ObjectId → Int) (s : Store) : Store :=
  { s with products := fun k => (s.products k).map (lowerStock (d k)) }

/-- The store after the insert of step 1 succeeded. -/
def withOrder (env : Env) (req : OrderRequest) (s : Store) : Store :=
  { s with orders := s.orders ++ [orderDoc env req s.nextObjectId],
           nextObjectId := s.nextObjectId + 1 }

/-- The store `s` without the cart entries of the buyer `email`. -/
def withoutCartOf (email : String) (s : Store) : Store :=
  { s with carts := s.carts.filter (fun c => decide (c.email ≠ email)) }

/-! ## Sample data -/

/-- Three products `1`, `2`, `3` with stock 10, 5 and 1; two cart entries of Ann
(one of them for product `3`), one of Bob; no order yet. -/
def sampleStore : Store :=
  { orders := []
    products := fun k =>
      if k = 1 then some { name := "A", stock := 10 }
      else if k = 2 then some { name := "B", stock := 5 }
      else if k = 3 then some { name := "C", stock := 1 }
      else none
    carts := [ { _id := 100, email := "ann@example.com", name := "A", quantity := 2 },
               { _id := 101, email := "ann@example.com", name := "C", quantity := 1 },
               { _id := 102, email := "bob@example.com", name := "B", quantity := 1 } ]
    nextObjectId := 1000 }

/-- An environment whose store never throws. -/
def calmEnv : Env := { now := 42, faults := Faults.never }

/-- An environment whose store throws on every call. -/
def brokenEnv : Env :=
  { now := 42
    faults := { insertOne := some "down", updateOne := fun _ => some "down",
                deleteMany := some "down" } }

/-- The line item `{ _id: k, quantity: q, ... }` for the product of key `k`. -/
def lineItemFor (k : ObjectId) (q : Option Int) : LineItem :=
  { _id := .valid k, quantity := q, name := "item", price := 10 }

/-- A cart element for the product of key `k`. -/
def lineFor (k : ObjectId) (q : Option Int) : CartElem := .item (lineItemFor k q)

/-- A line item whose `_id` the `ObjectId` constructor rejects. -/
def lineItemRejected (q : Option Int) : LineItem :=
  { _id := .invalid, quantity := q, name := "item", price := 10 }

/-- A cart element whose `_id` the `ObjectId` constructor rejects. -/
def lineRejected (q : Option Int) : CartElem := .item (lineItemRejected q)

/-- The cart `{}`: truthy, its `length` is `undefined`, it cannot be iterated. -/
def emptyObjectCart : Cart := .nonArray false none

/-- A request of Ann with the given cart; the amounts are unrelated to the cart. -/
def annOrders (cart : Cart) : OrderRequest :=
  { userEmail := some "ann@example.com", cart := cart, subtotal := 30, shippingCost := 5,
    total := 35, billingInfo := "billing", shippingInfo := "shipping", paymentInfo := "card" }

/-- Ann's request whose cart is `[{ _id: <rejected>, quantity: 1 }, { _id: 1, quantity: 2 }]`. -/
def rejectedIdOrder : OrderRequest :=
  annOrders (.array [lineRejected (some 1), lineFor 1 (some 2)])

/-- Ann's request whose cart is `{}`. -/
def objectCartOrder : OrderRequest := annOrders emptyObjectCart

/-- Ann's request whose cart is `[null, { _id: 1, quantity: 2 }]`. -/
def nullElementOrder : OrderRequest :=
  annOrders (.array [.null, lineFor 1 (some 2)])

/-- An environment whose store throws on the stock update of line item 1 only. -/
def secondUpdateThrows : Env :=
  { now := 42
    faults := { insertOne := none
                updateOne := fun i => if i = 1 then some "write conflict" else none
                deleteMany := none } }

/-- The sample store after Ann ordered 1 of product `3` (stock 1) twice: product
`3` is at -1. -/
def overdrawnStore : Store :=
  (placeOrder calmEnv (annOrders (.array [lineFor 3 (some 1)]))
    (placeOrder calmEnv (annOrders (.array [lineFor 3 (some 1)])) sampleStore).1).1

/-! ## The store calls and the loop -/

theorem lowerStock_zero (p : Product) : lowerStock 0 p = p := by
  cases p
  simp [lowerStock]

theorem lowerStock_lowerStock (d1 d2 : Int) (p : Product) :
    lowerStock d2 (lowerStock d1 p) = lowerStock (d1 + d2) p := by
  simp [lowerStock, sub_sub]

theorem decStock_zero (s : Store) : decStock (fun _ => 0) s = s := by
  cases s with
  | mk o p c n =>
    simp only [decStock]
    congr 1
    funext k
    cases p k <;> simp [lowerStock_zero]

theorem decStock_decStock (d1 d2 : ObjectId → Int) (s : Store) :
    decStock d2 (decStock d1 s) = decStock (fun k => d1 k + d2 k) s := by
  cases s with
  | mk o p c n =>
    simp only [decStock]
    congr 1
    funext k
    cases p k with
    | none => rfl
    | some x => simp [lowerStock_lowerStock]

theorem effectiveQuantity_eq (li : LineItem) :
    effectiveQuantity li = quantityOr1 li.quantity := by
  cases li with
  | mk i q n p => cases q <;> rfl

theorem orderedQuantity_nil (pid : ObjectId) : orderedQuantity pid [] = 0 := rfl

theorem orderedQuantity_cons_null (pid : ObjectId) (rest : List CartElem) :
    orderedQuantity pid (CartElem.null :: rest) = orderedQuantity pid rest := by
  simp [orderedQuantity, CartElem.lineItem?]

theorem orderedQuantity_cons_item (pid : ObjectId) (li : LineItem) (rest : List CartElem) :
    orderedQuantity pid (CartElem.item li :: rest)
      = (if li._id = RawId.valid pid then quantityOr1 li.quantity else 0)
        + orderedQuantity pid rest := by
  by_cases h : li._id = RawId.valid pid
  · simp [orderedQuantity, CartElem.lineItem?, List.filter_cons, h, effectiveQuantity_eq]
  · simp [orderedQuantity, CartElem.lineItem?, List.filter_cons, h]

theorem orderedQuantity_append (pid : ObjectId) (xs ys : List CartElem) :
    orderedQuantity pid (xs ++ ys) = orderedQuantity pid xs + orderedQuantity pid ys := by
  simp [orderedQuantity, List.filterMap_append, List.filter_append]

/-- An accepted element is a line item whose `_id` denotes a key. -/
theorem accepted_iff (el : CartElem) :
    el.accepted = true ↔ ∃ li k, el = CartElem.item li ∧ li._id = RawId.valid k := by
  cases el with
  | null => simp [CartElem.accepted]
  | item li =>
    cases hid : li._id with
    | invalid => simp [CartElem.accepted, hid]
    | valid k => simp [CartElem.accepted, hid]

theorem updateOne_none (productId : ObjectId) (delta : Int) (s : Store) :
    updateOne none productId delta s
      = (decStock (fun k => if k = productId then -delta else 0) s, .ok ()) := by
  cases s with
  | mk o p c n =>
    simp only [updateOne, decStock]
    congr 2
    funext k
    by_cases h : k = productId
    · cases hk : p k <;> simp [h, hk, lowerStock, sub_eq_add_neg]
    · cases hk : p k <;> simp [h, lowerStock_zero]

/-- One turn of the loop on a line item whose `_id` denotes `k`, the store call succeeding. -/
theorem updateStock_cons_valid (f : Faults) (i : Nat) (li : LineItem) (rest : List CartElem)
    (s : Store) (k : ObjectId) (hk : li._id = RawId.valid k) (hf : f.updateOne i = none) :
    updateStock f i (CartElem.item li :: rest) s
      = updateStock f (i + 1) rest
          (decStock (fun x => if x = k then quantityOr1 li.quantity else 0) s) := by
  simp [updateStock, hk, newObjectId, hf, updateOne_none]

/-- The loop gets through a run of accepted elements whose store call succeeds,
lowering each referenced stock, and goes on with the rest. -/
theorem updateStock_append (f : Faults) (pre rest : List CartElem) :
    ∀ (i : Nat) (s : Store), Convertible pre →
      (∀ j, j < pre.length → f.updateOne (i + j) = none) →
      updateStock f i (pre ++ rest) s
        = updateStock f (i + pre.length) rest
            (decStock (fun k => orderedQuantity k pre) s) := by
  induction pre with
  | nil =>
    intro i s _ _
    simp [orderedQuantity_nil, decStock_zero]
  | cons el pre ih =>
    intro i s hc hf
    obtain ⟨li, k, hel, hid⟩ := (accepted_iff el).mp (hc el (List.mem_cons_self _ _))
    subst hel
    have hpre : Convertible pre := fun x hx => hc x (List.mem_cons_of_mem _ hx)
    have h0 : f.updateOne i = none := by
      have := hf 0 (by simp)
      simpa using this
    have hrest : ∀ j, j < pre.length → f.updateOne (i + 1 + j) = none := by
      intro j hj
      have := hf (j + 1) (by simpa using hj)
      simpa [Nat.add_assoc, Nat.add_comm 1 j] using this
    rw [List.cons_append, updateStock_cons_valid f i li (pre ++ rest) s k hid h0,
      ih (i + 1) _ hpre hrest, decStock_decStock]
    have hlen : i + 1 + pre.length = i + (CartElem.item li :: pre).length := by
      simp [Nat.add_assoc, Nat.add_comm 1]
    rw [hlen]
    congr 2
    funext x
    rw [orderedQuantity_cons_item, hid]
    by_cases hx : x = k
    · simp [hx]
    · have : ¬ (RawId.valid k = RawId.valid x) := by
        intro h
        exact hx (RawId.valid.inj h).symm
      simp [hx, this]

/-- All elements are accepted and no stock update throws: the loop ends normally,
every product lowered by what the line items order of it. -/
theorem updateStock_ok (f : Faults) (items : List CartElem) (s : Store)
    (hc : Convertible items) (hf : ∀ j, j < items.length → f.updateOne j = none) :
    updateStock f 0 items s = (decStock (fun k => orderedQuantity k items) s, .ok ()) := by
  have h := updateStock_append f items [] 0 s hc (by simpa using hf)
  simpa [updateStock] using h

/-- The loop stops at the first element on which `new ObjectId(item._id)` throws. -/
theorem updateStock_stop (f : Faults) (pre post : List CartElem) (el : CartElem) (s : Store)
    (hc : Convertible pre) (hf : ∀ j, j < pre.length → f.updateOne j = none)
    (hel : el.accepted = false) :
    ∃ e, updateStock f 0 (pre ++ el :: post) s
      = (decStock (fun k => orderedQuantity k pre) s, .error e) := by
  rw [updateStock_append f pre (el :: post) 0 s hc (by simpa using hf)]
  cases el with
  | null => exact ⟨nullItemError, by simp [updateStock]⟩
  | item li =>
    cases hid : li._id with
    | valid k => simp [CartElem.accepted, hid] at hel
    | invalid => exact ⟨objectIdError, by simp [updateStock, hid, newObjectId]⟩

/-- The loop stops at the first line item whose `_id` the constructor rejects. -/
theorem updateStock_throw_id (f : Faults) (pre post : List CartElem) (li : LineItem) (s : Store)
    (hc : Convertible pre) (hf : ∀ j, j < pre.length → f.updateOne j = none)
    (hit : li._id = RawId.invalid) :
    updateStock f 0 (pre ++ CartElem.item li :: post) s
      = (decStock (fun k => orderedQuantity k pre) s, .error objectIdError) := by
  rw [updateStock_append f pre (CartElem.item li :: post) 0 s hc (by simpa using hf)]
  simp [updateStock, hit, newObjectId]

/-- The loop stops at the first line item whose stock update throws. -/
theorem updateStock_throw_store (f : Faults) (pre post : List CartElem) (li : LineItem)
    (s : Store) (e : String)
    (hc : Convertible pre) (hf : ∀ j, j < pre.length → f.updateOne j = none)
    (hit : li._id ≠ RawId.invalid) (he : f.updateOne pre.length = some e) :
    updateStock f 0 (pre ++ CartElem.item li :: post) s
      = (decStock (fun k => orderedQuantity k pre) s, .error e) := by
  rw [updateStock_append f pre (CartElem.item li :: post) 0 s hc (by simpa using hf)]
  cases hid : li._id with
  | invalid => exact absurd hid hit
  | valid k => simp [updateStock, hid, newObjectId, he, updateOne]

/-- `reached items` followed by what the loop does not get through is `items`;
the remainder is empty or starts with an element that is not accepted. -/
theorem reached_split (items : List CartElem) :
    Convertible (reached items) ∧
      (items = reached items ∨
        ∃ el post, el.accepted = false ∧ items = reached items ++ el :: post) := by
  induction items with
  | nil => exact ⟨fun _ h => by simp [reached] at h, Or.inl rfl⟩
  | cons el rest ih =>
    cases hacc : el.accepted with
    | false =>
      refine ⟨?_, Or.inr ⟨el, rest, hacc, ?_⟩⟩
      · intro x hx
        simp [reached, hacc] at hx
      · simp [reached, hacc]
    | true =>
      have hr : reached (el :: rest) = el :: reached rest := by simp [reached, hacc]
      rw [hr]
      refine ⟨?_, ?_⟩
      · intro x hx
        rcases List.mem_cons.mp hx with h | h
        · rw [h]; exact hacc
        · exact ih.1 x h
      · rcases ih.2 with h | ⟨el2, post, h1, h2⟩
        · exact Or.inl (by rw [← h])
        · exact Or.inr ⟨el2, post, h1, by rw [List.cons_append, ← h2]⟩

theorem reached_length_le (items : List CartElem) : (reached items).length ≤ items.length := by
  rcases (reached_split items).2 with h | ⟨el, post, _, h⟩
  · rw [← h]
  · conv_rhs => rw [h]
    simp

theorem reached_of_convertible (items : List CartElem) (hc : Convertible items) :
    reached items = items := by
  induction items with
  | nil => rfl
  | cons el rest ih =>
    have hacc : el.accepted = true := hc el (List.mem_cons_self _ _)
    simp [reached, hacc, ih (fun x hx => hc x (List.mem_cons_of_mem _ hx))]

/-- When no stock update throws, the store the loop leaves depends on the
elements alone: every product is lowered by what the reached ones order of it. -/
theorem updateStock_fst (f : Faults) (items : List CartElem) (s : Store)
    (hf : ∀ j, j < items.length → f.updateOne j = none) :
    (updateStock f 0 items s).1 = decStock (fun k => orderedQuantity k (reached items)) s := by
  have hlen := reached_length_le items
  have hf2 : ∀ j, j < (reached items).length → f.updateOne j = none :=
    fun j hj => hf j (lt_of_lt_of_le hj hlen)
  rcases reached_split items with ⟨hc, h | ⟨el, post, hel, h⟩⟩
  · rw [← h, updateStock_ok f items s (h ▸ hc) hf]
  · conv_lhs => rw [h]
    obtain ⟨e, he⟩ := updateStock_stop f (reached items) post el s hc hf2 hel
    rw [he]

/-! ## The handler, case by case -/

theorem isInvalid_false_iff (req : OrderRequest) :
    req.isInvalid = false ↔
      ∃ email, req.userEmail = some email ∧ email ≠ "" ∧
        req.cart.isFalsy = false ∧ req.cart.lengthIsZero = false := by
  cases req with
  | mk ue c st sc tt bi si pi =>
    cases ue <;> simp [OrderRequest.isInvalid, and_assoc]

theorem buyer_ne_empty (req : OrderRequest) (hv : req.isInvalid = false) :
    req.userEmail = some req.buyer ∧ req.buyer ≠ "" := by
  obtain ⟨email, he, hne, _, _⟩ := (isInvalid_false_iff req).mp hv
  simp [OrderRequest.buyer, he, hne]

theorem iterate_of_iterable (c : Cart) (h : c.iterable = true) : c.iterate = .ok c.elems := by
  cases c with
  | falsy => simp [Cart.iterable] at h
  | array elems => rfl
  | nonArray z y =>
    cases y with
    | none => simp [Cart.iterable] at h
    | some elems => rfl

theorem iterate_of_not_iterable (c : Cart) (h : c.iterable = false) :
    c.iterate = .error notIterableError ∧ c.elems = [] := by
  cases c with
  | falsy => exact ⟨rfl, rfl⟩
  | array elems => simp [Cart.iterable] at h
  | nonArray z y =>
    cases y with
    | none => exact ⟨rfl, rfl⟩
    | some elems => simp [Cart.iterable] at h

/-- A cart that holds an element can be iterated. -/
theorem iterable_of_elems_ne_nil (c : Cart) (h : c.elems ≠ []) : c.iterable = true := by
  cases hi : c.iterable with
  | true => rfl
  | false => exact absurd (iterate_of_not_iterable c hi).2 h

/-- A valid request whose insert succeeded and whose cart cannot be iterated:
the answer is the 500 response, the order stays inserted, nothing else is done. -/
theorem placeOrder_not_iterable (env : Env) (req : OrderRequest) (s : Store)
    (hv : req.isInvalid = false) (hi : env.faults.insertOne = none)
    (hiter : req.cart.iterable = false) :
    placeOrder env req s = (withOrder env req s, serverError notIterableError) := by
  simp [placeOrder, hv, insertOne, hi, (iterate_of_not_iterable req.cart hiter).1, withOrder]

/-- A valid request whose insert succeeded and whose loop threw: the answer is
the 500 response and the store is the one the loop left. -/
theorem placeOrder_loop_error (env : Env) (req : OrderRequest) (s s2 : Store) (e : String)
    (hv : req.isInvalid = false) (hi : env.faults.insertOne = none)
    (hiter : req.cart.iterable = true)
    (hl : updateStock env.faults 0 req.items (withOrder env req s) = (s2, .error e)) :
    placeOrder env req s = (s2, serverError e) := by
  simp only [withOrder, OrderRequest.items] at hl
  simp [placeOrder, hv, insertOne, hi, iterate_of_iterable req.cart hiter, hl]

/-- A valid request whose three steps succeeded. -/
theorem placeOrder_loop_ok (env : Env) (req : OrderRequest) (s s2 : Store)
    (hv : req.isInvalid = false) (hi : env.faults.insertOne = none)
    (hiter : req.cart.iterable = true)
    (hl : updateStock env.faults 0 req.items (withOrder env req s) = (s2, .ok ()))
    (hd : env.faults.deleteMany = none) :
    placeOrder env req s = (withoutCartOf req.buyer s2, orderPlaced s.nextObjectId) := by
  simp only [withOrder, OrderRequest.items] at hl
  simp [placeOrder, hv, insertOne, hi, iterate_of_iterable req.cart hiter, hl, deleteMany, hd,
    withoutCartOf]

/-- A valid request on a store that never throws, the cart iterable and every
element accepted. -/
theorem placeOrder_success (env : Env) (req : OrderRequest) (s : Store)
    (hv : req.isInvalid = false) (hf : NoStoreFailure env.faults req.items)
    (hiter : req.cart.iterable = true) (hc : Convertible req.items) :
    placeOrder env req s
      = (withoutCartOf req.buyer
          (decStock (fun k => orderedQuantity k req.items) (withOrder env req s)),
         orderPlaced s.nextObjectId) :=
  placeOrder_loop_ok env req s _ hv hf.1 hiter
    (updateStock_ok env.faults req.items _ hc hf.2.1) hf.2.2

/-- The store a valid request leaves when no store call throws, whatever the
cart: the order is inserted and the reached line items are applied. -/
theorem placeOrder_fst (env : Env) (req : OrderRequest) (s : Store)
    (hv : req.isInvalid = false) (hf : NoStoreFailure env.faults req.items) :
    (placeOrder env req s).1.orders = s.orders ++ [orderDoc env req s.nextObjectId] ∧
    (placeOrder env req s).1.nextObjectId = s.nextObjectId + 1 ∧
    (placeOrder env req s).1.products
      = fun k => (s.products k).map (lowerStock (orderedQuantity k (reached req.items))) := by
  cases hiter : req.cart.iterable with
  | false =>
    rw [placeOrder_not_iterable env req s hv hf.1 hiter]
    have hnil : req.items = [] := (iterate_of_not_iterable req.cart hiter).2
    refine ⟨rfl, rfl, ?_⟩
    rw [hnil]
    funext k
    show s.products k = _
    cases s.products k <;> simp [reached, orderedQuantity_nil, lowerStock_zero]
  | true =>
    have hfst := updateStock_fst env.faults req.items (withOrder env req s) hf.2.1
    cases hl : updateStock env.faults 0 req.items (withOrder env req s) with
    | mk s2 r =>
      rw [hl] at hfst
      simp only at hfst
      cases r with
      | error e =>
        rw [placeOrder_loop_error env req s s2 e hv hf.1 hiter hl, hfst]
        exact ⟨rfl, rfl, rfl⟩
      | ok u =>
        rw [placeOrder_loop_ok env req s s2 hv hf.1 hiter hl hf.2.2, hfst]
        exact ⟨rfl, rfl, rfl⟩

theorem noStoreFailure_never (items : List CartElem) : NoStoreFailure Faults.never items :=
  ⟨rfl, fun _ _ => rfl, rfl⟩

/-- The element of index `k` splits the cart into those before it and those after it. -/
theorem split_at (items : List CartElem) :
    ∀ (k : Nat) (el : CartElem), items[k]? = some el →
      items = items.take k ++ el :: items.drop (k + 1) ∧ (items.take k).length = k := by
  induction items with
  | nil => intro k el h; simp at h
  | cons x xs ih =>
    intro k el h
    cases k with
    | zero =>
      simp at h
      simp [h]
    | succ n =>
      have h2 : xs[n]? = some el := by simpa using h
      obtain ⟨h3, h4⟩ := ih n el h2
      refine ⟨?_, by simp [h4]⟩
      simp only [List.take_succ_cons, List.drop_succ_cons, List.cons_append]
      rw [← h3]

/-- A cart with an element of index `k` can be iterated. -/
theorem iterable_of_getElem (req : OrderRequest) (k : Nat) (el : CartElem)
    (hk : req.items[k]? = some el) : req.cart.iterable = true := by
  apply iterable_of_elems_ne_nil
  intro hnil
  have : req.items = [] := hnil
  rw [this] at hk
  simp at hk

/-- What the line items order of a product is what the others order of it plus
what the line item of index `k` orders, when that one references the product. -/
theorem orderedQuantity_eraseIdx (pid : ObjectId) (items : List CartElem) (k : Nat)
    (li : LineItem) (hk : items[k]? = some (CartElem.item li))
    (hid : li._id = RawId.valid pid) :
    orderedQuantity pid items
      = orderedQuantity pid (items.eraseIdx k) + quantityOr1 li.quantity := by
  obtain ⟨hsplit, _⟩ := split_at items k _ hk
  have h1 : orderedQuantity pid items
      = orderedQuantity pid (items.take k)
        + (quantityOr1 li.quantity + orderedQuantity pid (items.drop (k + 1))) := by
    conv_lhs => rw [hsplit]
    rw [orderedQuantity_append, orderedQuantity_cons_item, if_pos hid]
  rw [h1, List.eraseIdx_eq_take_drop_succ, orderedQuantity_append]
  ring

/-- An accepted order of a single line item for a stored product: the answer is
the 201 response and the product is lowered by `quantity || 1`. -/
theorem placeOrder_single_line (env : Env) (req : OrderRequest) (s : Store)
    (li : LineItem) (pid : ObjectId) (p : Product)
    (hv : req.isInvalid = false) (hcart : req.cart = Cart.array [CartElem.item li])
    (hid : li._id = RawId.valid pid) (hp : s.products pid = some p)
    (hf : NoStoreFailure env.faults req.items) :
    (placeOrder env req s).2 = orderPlaced s.nextObjectId ∧
      (placeOrder env req s).1.products pid
        = some (lowerStock (quantityOr1 li.quantity) p) := by
  have hitems : req.items = [CartElem.item li] := by simp [OrderRequest.items, hcart, Cart.elems]
  have hiter : req.cart.iterable = true := by simp [hcart, Cart.iterable]
  have hc : Convertible req.items := by
    intro x hx
    rw [hitems] at hx
    rw [List.mem_singleton.mp hx]
    simp [CartElem.accepted, hid]
  rw [placeOrder_success env req s hv hf hiter hc]
  refine ⟨rfl, ?_⟩
  show ((withOrder env req s).products pid).map _ = _
  have : (withOrder env req s).products pid = some p := hp
  rw [this, hitems]
  simp only [Option.map_some']
  rw [orderedQuantity_cons_item, if_pos hid, orderedQuantity_nil, add_zero]

/-! ## The claims -/

/-- C1. A request whose `userEmail` is absent or empty, or whose `cart` is absent or
empty, is answered with status 400 and message "Invalid order data", and the
store (orders, products, carts, identifier generator) is left exactly as it was;
this holds in every environment, also one whose store would throw on any call. -/
theorem placeOrder_invalid_request (env : Env) (req : OrderRequest) (s : Store)
    (h : req.userEmail = none ∨ req.userEmail = some "" ∨
      req.cart = Cart.falsy ∨ req.cart = Cart.array []) :
    (placeOrder env req s).2
        = { status := 400, message := "Invalid order data", orderId := none, error := none } ∧
      (placeOrder env req s).1 = s := by
  have hinv : req.isInvalid = true := by
    cases req with
    | mk ue c st sc tt bi si pi =>
      rcases h with h | h | h | h <;> simp only at h <;> subst h
      · simp [OrderRequest.isInvalid]
      · simp [OrderRequest.isInvalid]
      · cases ue <;> simp [OrderRequest.isInvalid, Cart.isFalsy]
      · cases ue <;> simp [OrderRequest.isInvalid, Cart.isFalsy, Cart.lengthIsZero]
  simp [placeOrder, hinv, invalidOrder]

/-- Witness of C1: Ann's request with an empty cart, on a store that would throw. -/
theorem placeOrder_invalid_request_witness :
    (annOrders (.array [])).cart = Cart.array [] ∧
      (placeOrder brokenEnv (annOrders (.array [])) sampleStore).2
        = { status := 400, message := "Invalid order data", orderId := none, error := none } ∧
      (placeOrder brokenEnv (annOrders (.array [])) sampleStore).1 = sampleStore :=
  ⟨rfl, placeOrder_invalid_request brokenEnv (annOrders (.array [])) sampleStore
    (Or.inr (Or.inr (Or.inr rfl)))⟩

/-- C2, as stated, fails. Ann orders a line item whose `_id` is rejected, then 2 of
product `1`. The request passes validation and no store call throws, the line
items referencing product `1` order 2 of it, yet its stock stays 10 instead of
becoming 8: the loop ended at the rejected `_id`. -/
theorem stock_claim_fails_on_rejected_id :
    (annOrders (.array [lineRejected (some 1), lineFor 1 (some 2)])).isInvalid = false ∧
      NoStoreFailure calmEnv.faults
        (annOrders (.array [lineRejected (some 1), lineFor 1 (some 2)])).items ∧
      orderedQuantity 1 (annOrders (.array [lineRejected (some 1), lineFor 1 (some 2)])).items
        = 2 ∧
      sampleStore.products 1 = some { name := "A", stock := 10 } ∧
      (placeOrder calmEnv (annOrders (.array [lineRejected (some 1), lineFor 1 (some 2)]))
          sampleStore).1.products 1 = some { name := "A", stock := 10 } ∧
      (placeOrder calmEnv (annOrders (.array [lineRejected (some 1), lineFor 1 (some 2)]))
          sampleStore).1.products 1
        ≠ (sampleStore.products 1).map (lowerStock (orderedQuantity 1
            (annOrders (.array [lineRejected (some 1), lineFor 1 (some 2)])).items)) :=
  ⟨by decide, noStoreFailure_never _, by decide, by decide, by decide, by decide⟩

/-- C2, amended. For a request that passes validation, when no store call throws
and `new ObjectId(item._id)` throws on no element of the cart (each is a line
item whose `_id` the constructor accepts), every product of the collection ends
with its previous stock minus the sum of the effective quantities of the line
items that reference it, its other fields unchanged; a key that held no product
still holds none. -/
theorem placeOrder_stock (env : Env) (req : OrderRequest) (s : Store)
    (hv : req.isInvalid = false) (hf : NoStoreFailure env.faults req.items)
    (hc : Convertible req.items) (pid : ObjectId) :
    (placeOrder env req s).1.products pid
      = (s.products pid).map (lowerStock (orderedQuantity pid req.items)) := by
  rw [(placeOrder_fst env req s hv hf).2.2, reached_of_convertible req.items hc]

/-- Witness of C2: Ann orders 2 of product `1`, 1 of product `2` and 3 more of
product `1`; product `1` goes from 10 to 5. -/
theorem placeOrder_stock_witness :
    (annOrders (.array [lineFor 1 (some 2), lineFor 2 (some 1), lineFor 1 (some 3)])).isInvalid
        = false ∧
      orderedQuantity 1
        (annOrders (.array [lineFor 1 (some 2), lineFor 2 (some 1), lineFor 1 (some 3)])).items
        = 5 ∧
      (placeOrder calmEnv
          (annOrders (.array [lineFor 1 (some 2), lineFor 2 (some 1), lineFor 1 (some 3)]))
          sampleStore).1.products 1
        = (sampleStore.products 1).map (lowerStock (orderedQuantity 1
            (annOrders (.array [lineFor 1 (some 2), lineFor 2 (some 1),
              lineFor 1 (some 3)])).items)) :=
  ⟨by decide, by decide,
    placeOrder_stock calmEnv
      (annOrders (.array [lineFor 1 (some 2), lineFor 2 (some 1), lineFor 1 (some 3)]))
      sampleStore (by decide) (noStoreFailure_never _)
      (by unfold Convertible; decide) 1⟩

/-- C3, as stated, fails, in three ways. Each of these requests of Ann passes
validation while no store call throws, and each leaves the cart collection as
it was, both cart entries of Ann still there: (1) a cart whose first line item
has a rejected `_id`; (2) the cart `{}`, which is truthy, has no `length` and
cannot be iterated; (3) a cart whose first element is `null`. -/
theorem cart_claim_fails :
    (rejectedIdOrder.isInvalid = false ∧
      NoStoreFailure calmEnv.faults rejectedIdOrder.items ∧
      (placeOrder calmEnv rejectedIdOrder sampleStore).1.carts = sampleStore.carts ∧
      (placeOrder calmEnv rejectedIdOrder sampleStore).1.carts
        ≠ sampleStore.carts.filter (fun c => decide (c.email ≠ "ann@example.com"))) ∧
    (objectCartOrder.isInvalid = false ∧
      NoStoreFailure calmEnv.faults objectCartOrder.items ∧
      Convertible objectCartOrder.items ∧
      (placeOrder calmEnv objectCartOrder sampleStore).1.carts = sampleStore.carts ∧
      (placeOrder calmEnv objectCartOrder sampleStore).1.carts
        ≠ sampleStore.carts.filter (fun c => decide (c.email ≠ "ann@example.com"))) ∧
    (nullElementOrder.isInvalid = false ∧
      NoStoreFailure calmEnv.faults nullElementOrder.items ∧
      (placeOrder calmEnv nullElementOrder sampleStore).1.carts = sampleStore.carts ∧
      (placeOrder calmEnv nullElementOrder sampleStore).1.carts
        ≠ sampleStore.carts.filter (fun c => decide (c.email ≠ "ann@example.com"))) :=
  ⟨⟨by decide, noStoreFailure_never _, by decide, by decide⟩,
    ⟨by decide, noStoreFailure_never _, by unfold Convertible; decide, by decide, by decide⟩,
    ⟨by decide, noStoreFailure_never _, by decide, by decide⟩⟩

/-- C3, amended. For a request that passes validation, when no store call
throws, the cart can be iterated (`for...of` does not throw on it) and
`new ObjectId(item._id)` throws on none of its elements (each is a line item,
not `null`, whose `_id` the constructor accepts), the cart collection afterwards
is the previous one without the entries whose `email` is the request's
`userEmail`, whatever product they are for: none of the buyer's entries remains
and every other entry is kept, in order. -/
theorem placeOrder_clears_cart (env : Env) (req : OrderRequest) (s : Store)
    (hv : req.isInvalid = false) (hf : NoStoreFailure env.faults req.items)
    (hiter : req.cart.iterable = true) (hc : Convertible req.items) :
    req.userEmail = some req.buyer ∧
      (placeOrder env req s).1.carts
        = s.carts.filter (fun c => decide (c.email ≠ req.buyer)) ∧
      (∀ c ∈ (placeOrder env req s).1.carts, c.email ≠ req.buyer) ∧
      (∀ c ∈ s.carts, c.email ≠ req.buyer → c ∈ (placeOrder env req s).1.carts) := by
  rw [placeOrder_success env req s hv hf hiter hc]
  refine ⟨(buyer_ne_empty req hv).1, rfl, ?_, ?_⟩
  · intro c hcm
    have := (List.mem_filter.mp hcm).2
    simpa using this
  · intro c hcm hne
    exact List.mem_filter.mpr ⟨hcm, by simpa using hne⟩

/-- Witness of C3: Ann buys product `1` only; her entry for product `3` goes too,
Bob's entry stays. -/
theorem placeOrder_clears_cart_witness :
    (annOrders (.array [lineFor 1 (some 2)])).isInvalid = false ∧
      (annOrders (.array [lineFor 1 (some 2)])).cart.iterable = true ∧
      (placeOrder calmEnv (annOrders (.array [lineFor 1 (some 2)])) sampleStore).1.carts
        = [ { _id := 102, email := "bob@example.com", name := "B", quantity := 1 } ] ∧
      (annOrders (.array [lineFor 1 (some 2)])).userEmail
        = some (annOrders (.array [lineFor 1 (some 2)])).buyer ∧
      (placeOrder calmEnv (annOrders (.array [lineFor 1 (some 2)])) sampleStore).1.carts
        = sampleStore.carts.filter
            (fun c => decide (c.email ≠ (annOrders (.array [lineFor 1 (some 2)])).buyer)) ∧
      (∀ c ∈ (placeOrder calmEnv (annOrders (.array [lineFor 1 (some 2)])) sampleStore).1.carts,
        c.email ≠ (annOrders (.array [lineFor 1 (some 2)])).buyer) ∧
      (∀ c ∈ sampleStore.carts, c.email ≠ (annOrders (.array [lineFor 1 (some 2)])).buyer →
        c ∈ (placeOrder calmEnv (annOrders (.array [lineFor 1 (some 2)])) sampleStore).1.carts) :=
  ⟨by decide, by decide, by decide,
    placeOrder_clears_cart calmEnv (annOrders (.array [lineFor 1 (some 2)])) sampleStore
      (by decide) (noStoreFailure_never _) (by decide) (by unfold Convertible; decide)⟩

/-- C4, as stated, fails, in three ways. Each of these requests of Ann passes
validation while no store call throws; the order is inserted with the generated
`_id` 1000, but the answer is the 500 response, not 201 with that identifier:
(1) a cart whose first line item has a rejected `_id`; (2) the cart `{}`, which
cannot be iterated; (3) a cart whose first element is `null`. -/
theorem created_claim_fails :
    (rejectedIdOrder.isInvalid = false ∧
      NoStoreFailure calmEnv.faults rejectedIdOrder.items ∧
      (placeOrder calmEnv rejectedIdOrder sampleStore).2 = serverError objectIdError ∧
      (placeOrder calmEnv rejectedIdOrder sampleStore).2.status = 500 ∧
      (placeOrder calmEnv rejectedIdOrder sampleStore).2
        ≠ { status := 201, message := "Order placed successfully", orderId := some 1000,
            error := none } ∧
      ((placeOrder calmEnv rejectedIdOrder sampleStore).1.orders.map (fun o => o._id))
        = [1000]) ∧
    (objectCartOrder.isInvalid = false ∧
      NoStoreFailure calmEnv.faults objectCartOrder.items ∧
      Convertible objectCartOrder.items ∧
      (placeOrder calmEnv objectCartOrder sampleStore).2 = serverError notIterableError ∧
      (placeOrder calmEnv objectCartOrder sampleStore).2.status = 500 ∧
      (placeOrder calmEnv objectCartOrder sampleStore).2
        ≠ { status := 201, message := "Order placed successfully", orderId := some 1000,
            error := none } ∧
      ((placeOrder calmEnv objectCartOrder sampleStore).1.orders.map (fun o => o._id))
        = [1000]) ∧
    (nullElementOrder.isInvalid = false ∧
      NoStoreFailure calmEnv.faults nullElementOrder.items ∧
      (placeOrder calmEnv nullElementOrder sampleStore).2 = serverError nullItemError ∧
      (placeOrder calmEnv nullElementOrder sampleStore).2.status = 500 ∧
      (placeOrder calmEnv nullElementOrder sampleStore).2
        ≠ { status := 201, message := "Order placed successfully", orderId := some 1000,
            error := none } ∧
      ((placeOrder calmEnv nullElementOrder sampleStore).1.orders.map (fun o => o._id))
        = [1000]) :=
  ⟨⟨by decide, noStoreFailure_never _, by decide, by decide, by decide, by decide⟩,
    ⟨by decide, noStoreFailure_never _, by unfold Convertible; decide, by decide, by decide,
      by decide, by decide⟩,
    ⟨by decide, noStoreFailure_never _, by decide, by decide, by decide, by decide⟩⟩

/-- C4, amended. For a request that passes validation, when no store call throws,
the order collection afterwards is the previous one followed by exactly one new
order, whose `userEmail`, `cart`, `subtotal`, `shippingCost`, `total`,
`billingInfo`, `shippingInfo` and `paymentInfo` are the request's own values
(nothing is recomputed from the line items), stamped with the server's clock;
and when moreover the cart can be iterated and `new ObjectId(item._id)` throws
on none of its elements (each is a line item, not `null`, whose `_id` the
constructor accepts), the answer is status 201, message
"Order placed successfully", `orderId` the generated `_id` of that new order. -/
theorem placeOrder_inserts_order (env : Env) (req : OrderRequest) (s : Store)
    (hv : req.isInvalid = false) (hf : NoStoreFailure env.faults req.items) :
    ∃ o : OrderDoc,
      (placeOrder env req s).1.orders = s.orders ++ [o] ∧
      o._id = s.nextObjectId ∧
      req.userEmail = some o.userEmail ∧ o.cart = req.cart ∧
      o.subtotal = req.subtotal ∧ o.shippingCost = req.shippingCost ∧ o.total = req.total ∧
      o.billingInfo = req.billingInfo ∧ o.shippingInfo = req.shippingInfo ∧
      o.paymentInfo = req.paymentInfo ∧ o.createdAt = env.now ∧
      (req.cart.iterable = true → Convertible req.items →
        (placeOrder env req s).2
          = { status := 201, message := "Order placed successfully", orderId := some o._id,
              error := none }) := by
  refine ⟨orderDoc env req s.nextObjectId, (placeOrder_fst env req s hv hf).1, rfl, ?_, rfl,
    rfl, rfl, rfl, rfl, rfl, rfl, rfl, ?_⟩
  · exact (buyer_ne_empty req hv).1
  · intro hiter hc
    rw [placeOrder_success env req s hv hf hiter hc]
    rfl

/-- Witness of C4: Ann's request for 2 of product `1` and 1 of product `2`, with
amounts 30/5/35 that no price of the cart explains. -/
theorem placeOrder_inserts_order_witness :
    (annOrders (.array [lineFor 1 (some 2), lineFor 2 (some 1)])).isInvalid = false ∧
      (placeOrder calmEnv (annOrders (.array [lineFor 1 (some 2), lineFor 2 (some 1)]))
          sampleStore).2
        = { status := 201, message := "Order placed successfully", orderId := some 1000,
            error := none } ∧
      ∃ o : OrderDoc,
        (placeOrder calmEnv (annOrders (.array [lineFor 1 (some 2), lineFor 2 (some 1)]))
            sampleStore).1.orders = sampleStore.orders ++ [o] ∧
        o._id = sampleStore.nextObjectId ∧
        (annOrders (.array [lineFor 1 (some 2), lineFor 2 (some 1)])).userEmail
          = some o.userEmail ∧
        o.cart = (annOrders (.array [lineFor 1 (some 2), lineFor 2 (some 1)])).cart ∧
        o.subtotal = (annOrders (.array [lineFor 1 (some 2), lineFor 2 (some 1)])).subtotal ∧
        o.shippingCost
          = (annOrders (.array [lineFor 1 (some 2), lineFor 2 (some 1)])).shippingCost ∧
        o.total = (annOrders (.array [lineFor 1 (some 2), lineFor 2 (some 1)])).total ∧
        o.billingInfo
          = (annOrders (.array [lineFor 1 (some 2), lineFor 2 (some 1)])).billingInfo ∧
        o.shippingInfo
          = (annOrders (.array [lineFor 1 (some 2), lineFor 2 (some 1)])).shippingInfo ∧
        o.paymentInfo
          = (annOrders (.array [lineFor 1 (some 2), lineFor 2 (some 1)])).paymentInfo ∧
        o.createdAt = calmEnv.now ∧
        ((annOrders (.array [lineFor 1 (some 2), lineFor 2 (some 1)])).cart.iterable = true →
          Convertible (annOrders (.array [lineFor 1 (some 2), lineFor 2 (some 1)])).items →
          (placeOrder calmEnv (annOrders (.array [lineFor 1 (some 2), lineFor 2 (some 1)]))
              sampleStore).2
            = { status := 201, message := "Order placed successfully",
                orderId := some o._id, error := none }) :=
  ⟨by decide, by decide,
    placeOrder_inserts_order calmEnv
      (annOrders (.array [lineFor 1 (some 2), lineFor 2 (some 1)]))
      sampleStore (by decide) (noStoreFailure_never _)⟩

/-- C5. For a request that passes validation, if the order insert succeeds and the
loop gets to the stock update of line item `k` (the updates of the line items
before it succeeded, and the `_id`s up to it were accepted) where the store
throws with message `e`, then the answer is status 500 with message
"Server error" (and `e` as diagnostic), the new order is in the order
collection, every product is lowered by what the line items before `k` order
of it and by nothing of line item `k` or the later ones, and the cart collection
is as it was. -/
theorem placeOrder_stock_update_throws (env : Env) (req : OrderRequest) (s : Store)
    (k : Nat) (it : LineItem) (e : String)
    (hv : req.isInvalid = false) (hi : env.faults.insertOne = none)
    (hk : req.items[k]? = some (CartElem.item it))
    (hc : Convertible (req.items.take k)) (hit : it._id ≠ RawId.invalid)
    (hpre : ∀ j, j < k → env.faults.updateOne j = none)
    (he : env.faults.updateOne k = some e) :
    (placeOrder env req s).2
        = { status := 500, message := "Server error", orderId := none, error := some e } ∧
      (placeOrder env req s).1.orders = s.orders ++ [orderDoc env req s.nextObjectId] ∧
      (∀ pid, (placeOrder env req s).1.products pid
        = (s.products pid).map (lowerStock (orderedQuantity pid (req.items.take k)))) ∧
      (placeOrder env req s).1.carts = s.carts := by
  obtain ⟨hsplit, hlen⟩ := split_at req.items k _ hk
  have hiter := iterable_of_getElem req k _ hk
  have hl : updateStock env.faults 0 req.items (withOrder env req s)
      = (decStock (fun x => orderedQuantity x (req.items.take k)) (withOrder env req s),
          .error e) := by
    conv_lhs => rw [hsplit]
    exact updateStock_throw_store env.faults _ _ it _ e hc (by rw [hlen]; exact hpre) hit
      (by rw [hlen]; exact he)
  rw [placeOrder_loop_error env req s _ e hv hi hiter hl]
  exact ⟨rfl, rfl, fun _ => rfl, rfl⟩

/-- Witness of C5: Ann orders 2 of product `1`, then 1 of product `2`, then 1 of
product `3`; the store throws on the second update. -/
theorem placeOrder_stock_update_throws_witness :
    (annOrders (.array [lineFor 1 (some 2), lineFor 2 (some 1), lineFor 3 (some 1)])).isInvalid
        = false ∧
      (placeOrder secondUpdateThrows
          (annOrders (.array [lineFor 1 (some 2), lineFor 2 (some 1), lineFor 3 (some 1)]))
          sampleStore).1.products 1 = some { name := "A", stock := 8 } ∧
      (placeOrder secondUpdateThrows
          (annOrders (.array [lineFor 1 (some 2), lineFor 2 (some 1), lineFor 3 (some 1)]))
          sampleStore).1.products 2 = some { name := "B", stock := 5 } ∧
      ((placeOrder secondUpdateThrows
          (annOrders (.array [lineFor 1 (some 2), lineFor 2 (some 1), lineFor 3 (some 1)]))
          sampleStore).2
        = { status := 500, message := "Server error", orderId := none,
            error := some "write conflict" } ∧
      (placeOrder secondUpdateThrows
          (annOrders (.array [lineFor 1 (some 2), lineFor 2 (some 1), lineFor 3 (some 1)]))
          sampleStore).1.orders
        = sampleStore.orders ++ [orderDoc secondUpdateThrows
            (annOrders (.array [lineFor 1 (some 2), lineFor 2 (some 1), lineFor 3 (some 1)]))
            sampleStore.nextObjectId] ∧
      (∀ pid, (placeOrder secondUpdateThrows
          (annOrders (.array [lineFor 1 (some 2), lineFor 2 (some 1), lineFor 3 (some 1)]))
          sampleStore).1.products pid
        = (sampleStore.products pid).map (lowerStock (orderedQuantity pid
            ((annOrders (.array [lineFor 1 (some 2), lineFor 2 (some 1),
              lineFor 3 (some 1)])).items.take 1)))) ∧
      (placeOrder secondUpdateThrows
          (annOrders (.array [lineFor 1 (some 2), lineFor 2 (some 1), lineFor 3 (some 1)]))
          sampleStore).1.carts = sampleStore.carts) :=
  ⟨by decide, by decide, by decide,
    placeOrder_stock_update_throws secondUpdateThrows
      (annOrders (.array [lineFor 1 (some 2), lineFor 2 (some 1), lineFor 3 (some 1)]))
      sampleStore 1 (lineItemFor 2 (some 1)) "write conflict" (by decide) rfl (by decide)
      (by unfold Convertible; decide) (by decide) (by decide) (by decide)⟩

/-- C9. For a request that passes validation, when no store call throws and line
item `k` is the one on which the `ObjectId` constructor throws (the `_id`s
before it were accepted, so the loop gets there), the answer is status 500 with
message "Server error", the order inserted in step 1 is in the order
collection, every product is lowered by what the line items before `k` order of
it and by nothing of the later ones, and the cart collection is as it was. -/
theorem placeOrder_id_rejected (env : Env) (req : OrderRequest) (s : Store)
    (k : Nat) (it : LineItem)
    (hv : req.isInvalid = false) (hf : NoStoreFailure env.faults req.items)
    (hk : req.items[k]? = some (CartElem.item it)) (hbad : it._id = RawId.invalid)
    (hc : Convertible (req.items.take k)) :
    (placeOrder env req s).2
        = { status := 500, message := "Server error", orderId := none,
            error := some objectIdError } ∧
      (placeOrder env req s).1.orders = s.orders ++ [orderDoc env req s.nextObjectId] ∧
      (∀ pid, (placeOrder env req s).1.products pid
        = (s.products pid).map (lowerStock (orderedQuantity pid (req.items.take k)))) ∧
      (placeOrder env req s).1.carts = s.carts := by
  obtain ⟨hsplit, hlen⟩ := split_at req.items k _ hk
  have hiter := iterable_of_getElem req k _ hk
  have hklt : k < req.items.length := by
    by_contra hge
    rw [List.getElem?_eq_none (Nat.le_of_not_lt hge)] at hk
    cases hk
  have hl : updateStock env.faults 0 req.items (withOrder env req s)
      = (decStock (fun x => orderedQuantity x (req.items.take k)) (withOrder env req s),
          .error objectIdError) := by
    conv_lhs => rw [hsplit]
    refine updateStock_throw_id env.faults _ _ it _ hc ?_ hbad
    intro j hj
    rw [hlen] at hj
    exact hf.2.1 j (lt_trans hj hklt)
  rw [placeOrder_loop_error env req s _ objectIdError hv hf.1 hiter hl]
  exact ⟨rfl, rfl, fun _ => rfl, rfl⟩

/-- Witness of C9: Ann orders 2 of product `1`, then a line item whose `_id` is
rejected, then 1 of product `2`. -/
theorem placeOrder_id_rejected_witness :
    (annOrders (.array [lineFor 1 (some 2), lineRejected (some 1), lineFor 2 (some 1)])).isInvalid
        = false ∧
      (placeOrder calmEnv
          (annOrders (.array [lineFor 1 (some 2), lineRejected (some 1), lineFor 2 (some 1)]))
          sampleStore).1.products 1 = some { name := "A", stock := 8 } ∧
      (placeOrder calmEnv
          (annOrders (.array [lineFor 1 (some 2), lineRejected (some 1), lineFor 2 (some 1)]))
          sampleStore).1.products 2 = some { name := "B", stock := 5 } ∧
      ((placeOrder calmEnv
          (annOrders (.array [lineFor 1 (some 2), lineRejected (some 1), lineFor 2 (some 1)]))
          sampleStore).2
        = { status := 500, message := "Server error", orderId := none,
            error := some objectIdError } ∧
      (placeOrder calmEnv
          (annOrders (.array [lineFor 1 (some 2), lineRejected (some 1), lineFor 2 (some 1)]))
          sampleStore).1.orders
        = sampleStore.orders ++ [orderDoc calmEnv
            (annOrders (.array [lineFor 1 (some 2), lineRejected (some 1), lineFor 2 (some 1)]))
            sampleStore.nextObjectId] ∧
      (∀ pid, (placeOrder calmEnv
          (annOrders (.array [lineFor 1 (some 2), lineRejected (some 1), lineFor 2 (some 1)]))
          sampleStore).1.products pid
        = (sampleStore.products pid).map (lowerStock (orderedQuantity pid
            ((annOrders (.array [lineFor 1 (some 2), lineRejected (some 1),
              lineFor 2 (some 1)])).items.take 1)))) ∧
      (placeOrder calmEnv
          (annOrders (.array [lineFor 1 (some 2), lineRejected (some 1), lineFor 2 (some 1)]))
          sampleStore).1.carts = sampleStore.carts) :=
  ⟨by decide, by decide, by decide,
    placeOrder_id_rejected calmEnv
      (annOrders (.array [lineFor 1 (some 2), lineRejected (some 1), lineFor 2 (some 1)]))
      sampleStore 1 (lineItemRejected (some 1)) (by decide) (noStoreFailure_never _) (by decide)
      (by decide) (by unfold Convertible; decide)⟩

/-- C6. `placeOrder` is not idempotent. For a request that passes validation, two
calls in a row with the same payload, no store call throwing in either, leave
the order collection with two new orders for that payload whose generated `_id`s
differ (so the second call did change the store), and every product ends with
its stock lowered by twice what the first call alone lowered it by; that amount
is the product's ordered quantity when every `_id` of the cart is accepted. -/
theorem placeOrder_twice (env1 env2 : Env) (req : OrderRequest) (s : Store)
    (hv : req.isInvalid = false)
    (hf1 : NoStoreFailure env1.faults req.items)
    (hf2 : NoStoreFailure env2.faults req.items) :
    (∃ o1 o2 : OrderDoc,
      (placeOrder env1 req s).1.orders = s.orders ++ [o1] ∧
      (placeOrder env2 req (placeOrder env1 req s).1).1.orders = s.orders ++ [o1, o2] ∧
      o1._id ≠ o2._id ∧
      o1.userEmail = req.buyer ∧ o2.userEmail = req.buyer ∧
      o1.cart = req.cart ∧ o2.cart = req.cart) ∧
    (∀ pid p, s.products pid = some p →
      ∃ p1 p2 : Product,
        (placeOrder env1 req s).1.products pid = some p1 ∧
        (placeOrder env2 req (placeOrder env1 req s).1).1.products pid = some p2 ∧
        p.stock - p2.stock = 2 * (p.stock - p1.stock) ∧
        (Convertible req.items → p.stock - p1.stock = orderedQuantity pid req.items)) := by
  obtain ⟨ho1, hn1, hp1⟩ := placeOrder_fst env1 req s hv hf1
  obtain ⟨ho2, _, hp2⟩ := placeOrder_fst env2 req (placeOrder env1 req s).1 hv hf2
  refine ⟨⟨orderDoc env1 req s.nextObjectId, orderDoc env2 req (s.nextObjectId + 1),
    ho1, ?_, ?_, rfl, rfl, rfl, rfl⟩, ?_⟩
  · rw [ho2, ho1, hn1]
    simp
  · simp [orderDoc]
  · intro pid p hp
    refine ⟨lowerStock (orderedQuantity pid (reached req.items)) p,
      lowerStock (orderedQuantity pid (reached req.items))
        (lowerStock (orderedQuantity pid (reached req.items)) p), ?_, ?_, ?_, ?_⟩
    · rw [hp1]
      simp [hp]
    · rw [hp2, hp1]
      simp [hp]
    · simp only [lowerStock]
      ring
    · intro hc
      rw [reached_of_convertible req.items hc]
      simp [lowerStock]

/-- Witness of C6: Ann sends the order for 2 of product `1` and 1 of product `2`
twice; product `1` goes from 10 to 8 to 6. -/
theorem placeOrder_twice_witness :
    (annOrders (.array [lineFor 1 (some 2), lineFor 2 (some 1)])).isInvalid = false ∧
      ((placeOrder calmEnv (annOrders (.array [lineFor 1 (some 2), lineFor 2 (some 1)]))
        (placeOrder calmEnv (annOrders (.array [lineFor 1 (some 2), lineFor 2 (some 1)]))
          sampleStore).1).1.orders.map (fun o => o._id)) = [1000, 1001] ∧
      (placeOrder calmEnv (annOrders (.array [lineFor 1 (some 2), lineFor 2 (some 1)]))
        (placeOrder calmEnv (annOrders (.array [lineFor 1 (some 2), lineFor 2 (some 1)]))
          sampleStore).1).1.products 1 = some { name := "A", stock := 6 } ∧
      ((∃ o1 o2 : OrderDoc,
        (placeOrder calmEnv (annOrders (.array [lineFor 1 (some 2), lineFor 2 (some 1)]))
          sampleStore).1.orders = sampleStore.orders ++ [o1] ∧
        (placeOrder calmEnv (annOrders (.array [lineFor 1 (some 2), lineFor 2 (some 1)]))
          (placeOrder calmEnv (annOrders (.array [lineFor 1 (some 2), lineFor 2 (some 1)]))
            sampleStore).1).1.orders = sampleStore.orders ++ [o1, o2] ∧
        o1._id ≠ o2._id ∧
        o1.userEmail = (annOrders (.array [lineFor 1 (some 2), lineFor 2 (some 1)])).buyer ∧
        o2.userEmail = (annOrders (.array [lineFor 1 (some 2), lineFor 2 (some 1)])).buyer ∧
        o1.cart = (annOrders (.array [lineFor 1 (some 2), lineFor 2 (some 1)])).cart ∧
        o2.cart = (annOrders (.array [lineFor 1 (some 2), lineFor 2 (some 1)])).cart) ∧
      (∀ pid p, sampleStore.products pid = some p →
        ∃ p1 p2 : Product,
          (placeOrder calmEnv (annOrders (.array [lineFor 1 (some 2), lineFor 2 (some 1)]))
            sampleStore).1.products pid = some p1 ∧
          (placeOrder calmEnv (annOrders (.array [lineFor 1 (some 2), lineFor 2 (some 1)]))
            (placeOrder calmEnv (annOrders (.array [lineFor 1 (some 2), lineFor 2 (some 1)]))
              sampleStore).1).1.products pid = some p2 ∧
          p.stock - p2.stock = 2 * (p.stock - p1.stock) ∧
          (Convertible (annOrders (.array [lineFor 1 (some 2), lineFor 2 (some 1)])).items →
            p.stock - p1.stock
              = orderedQuantity pid
                  (annOrders (.array [lineFor 1 (some 2), lineFor 2 (some 1)])).items))) :=
  ⟨by decide, by decide, by decide,
    placeOrder_twice calmEnv calmEnv (annOrders (.array [lineFor 1 (some 2), lineFor 2 (some 1)]))
      sampleStore (by decide) (noStoreFailure_never _) (noStoreFailure_never _)⟩

/-- C7, as stated, fails in its last part. Product `3` of the overdrawn store has
stock -1; an order of quantity 0 for it (0 is greater than -1) is accepted and
leaves the stock at -2, not at -1 - 0: a quantity of 0 counts as 1. -/
theorem overquantity_claim_fails_on_zero :
    overdrawnStore.products 3 = some { name := "C", stock := -1 } ∧
      (-1 : Int) < 0 ∧
      (annOrders (.array [lineFor 3 (some 0)])).isInvalid = false ∧
      NoStoreFailure calmEnv.faults (annOrders (.array [lineFor 3 (some 0)])).items ∧
      (placeOrder calmEnv (annOrders (.array [lineFor 3 (some 0)])) overdrawnStore).2.status
        = 201 ∧
      (placeOrder calmEnv (annOrders (.array [lineFor 3 (some 0)])) overdrawnStore).1.products 3
        = some { name := "C", stock := -2 } ∧
      (placeOrder calmEnv (annOrders (.array [lineFor 3 (some 0)])) overdrawnStore).1.products 3
        ≠ some { name := "C", stock := -1 - 0 } :=
  ⟨by decide, by decide, by decide, noStoreFailure_never _, by decide, by decide, by decide⟩

/-- C7, amended. `placeOrder` does not keep stock non-negative. (1) There are a
store, a product of non-negative stock and a valid request such that the call
is answered 201 and leaves that product with negative stock. (2) For a product
with stock 1, two orders in a row, each of one line item of quantity 1 for it,
no store call throwing, are both answered 201 and leave its stock at -1.
(3) A single order of one line item of quantity `q` for a product of stock
`st`, with `q` greater than `st` and `q` not 0, is answered 201 and leaves the
stock at `st - q`, which is negative. -/
theorem placeOrder_stock_goes_negative :
    (∃ (env : Env) (req : OrderRequest) (s : Store) (pid : ObjectId) (p p1 : Product),
      req.isInvalid = false ∧ s.products pid = some p ∧ 0 ≤ p.stock ∧
      (placeOrder env req s).2.status = 201 ∧
      (placeOrder env req s).1.products pid = some p1 ∧ p1.stock < 0) ∧
    (∀ (env1 env2 : Env) (req1 req2 : OrderRequest) (s : Store) (pid : ObjectId)
      (p : Product) (it1 it2 : LineItem),
      s.products pid = some p → p.stock = 1 →
      req1.isInvalid = false → req1.cart = Cart.array [CartElem.item it1] →
      it1._id = RawId.valid pid → it1.quantity = some 1 →
      req2.isInvalid = false → req2.cart = Cart.array [CartElem.item it2] →
      it2._id = RawId.valid pid → it2.quantity = some 1 →
      NoStoreFailure env1.faults req1.items → NoStoreFailure env2.faults req2.items →
      (placeOrder env1 req1 s).2.status = 201 ∧
      (placeOrder env2 req2 (placeOrder env1 req1 s).1).2.status = 201 ∧
      (placeOrder env2 req2 (placeOrder env1 req1 s).1).1.products pid
        = some { p with stock := -1 }) ∧
    (∀ (env : Env) (req : OrderRequest) (s : Store) (pid : ObjectId) (p : Product)
      (it : LineItem) (q : Int),
      s.products pid = some p →
      req.isInvalid = false → req.cart = Cart.array [CartElem.item it] →
      it._id = RawId.valid pid → it.quantity = some q →
      p.stock < q → q ≠ 0 →
      NoStoreFailure env.faults req.items →
      (placeOrder env req s).2.status = 201 ∧
      (placeOrder env req s).1.products pid = some { p with stock := p.stock - q } ∧
      p.stock - q < 0) := by
  refine ⟨⟨calmEnv, annOrders (.array [lineFor 3 (some 5)]), sampleStore, 3,
    { name := "C", stock := 1 }, { name := "C", stock := -4 },
    by decide, by decide, by decide, by decide, by decide, by decide⟩, ?_, ?_⟩
  · intro env1 env2 req1 req2 s pid p it1 it2 hp hst hv1 hc1 hid1 hq1 hv2 hc2 hid2 hq2 hf1 hf2
    obtain ⟨hr1, hs1⟩ := placeOrder_single_line env1 req1 s it1 pid p hv1 hc1 hid1 hp hf1
    obtain ⟨hr2, hs2⟩ := placeOrder_single_line env2 req2 (placeOrder env1 req1 s).1 it2 pid
      _ hv2 hc2 hid2 hs1 hf2
    refine ⟨by rw [hr1]; rfl, by rw [hr2]; rfl, ?_⟩
    rw [hs2, hq1, hq2]
    simp [lowerStock, quantityOr1, hst]
  · intro env req s pid p it q hp hv hc hid hq hlt hq0 hf
    obtain ⟨hr, hs⟩ := placeOrder_single_line env req s it pid p hv hc hid hp hf
    refine ⟨by rw [hr]; rfl, ?_, by omega⟩
    rw [hs, hq]
    simp [lowerStock, quantityOr1, hq0]

/-- Witness of C7 (third part): Ann orders 5 of product `3`, which has stock 1. -/
theorem placeOrder_stock_goes_negative_witness :
    sampleStore.products 3 = some { name := "C", stock := 1 } ∧
      (placeOrder calmEnv (annOrders (.array [lineFor 3 (some 5)])) sampleStore).2.status = 201 ∧
      (placeOrder calmEnv (annOrders (.array [lineFor 3 (some 5)])) sampleStore).1.products 3
        = some { ({ name := "C", stock := 1 } : Product) with stock := 1 - 5 } ∧
      ((1 : Int) - 5 < 0) :=
  ⟨by decide,
    placeOrder_stock_goes_negative.2.2 calmEnv (annOrders (.array [lineFor 3 (some 5)]))
      sampleStore 3 { name := "C", stock := 1 } (lineItemFor 3 (some 5)) 5
      (by decide) (by decide) (by decide) (by decide) (by decide) (by decide) (by decide)
      (noStoreFailure_never _)⟩

/-- C8, as stated, fails. Ann orders 1 of product `99`, which the collection does
not hold, then a line item whose `_id` is rejected. The request passes
validation and no store call throws, yet the answer is 500 and her cart is not
cleared. -/
theorem unknown_product_claim_fails_on_rejected_id :
    (annOrders (.array [lineFor 99 (some 1), lineRejected none])).isInvalid = false ∧
      NoStoreFailure calmEnv.faults
        (annOrders (.array [lineFor 99 (some 1), lineRejected none])).items ∧
      sampleStore.products 99 = none ∧
      (placeOrder calmEnv (annOrders (.array [lineFor 99 (some 1), lineRejected none]))
          sampleStore).2.status = 500 ∧
      (placeOrder calmEnv (annOrders (.array [lineFor 99 (some 1), lineRejected none]))
          sampleStore).2.status ≠ 201 ∧
      (placeOrder calmEnv (annOrders (.array [lineFor 99 (some 1), lineRejected none]))
          sampleStore).1.carts = sampleStore.carts :=
  ⟨by decide, noStoreFailure_never _, by decide, by decide, by decide, by decide⟩

/-- C8, amended. For a request that passes validation in which some line item
references a key that holds no product, when no store call throws and
`new ObjectId(item._id)` throws on no element of the cart (each is a line item
whose `_id` the constructor accepts): the answer is 201
with the new order's identifier, the order is inserted, every key without a
product is still without one, every stored product is lowered by what the line
items order of it, and the buyer's cart entries are deleted. -/
theorem placeOrder_unknown_product (env : Env) (req : OrderRequest) (s : Store)
    (it : LineItem) (pid : ObjectId)
    (hv : req.isInvalid = false) (hf : NoStoreFailure env.faults req.items)
    (hc : Convertible req.items)
    (hmem : CartElem.item it ∈ req.items) (_hid : it._id = RawId.valid pid)
    (hnone : s.products pid = none) :
    (placeOrder env req s).2
        = { status := 201, message := "Order placed successfully",
            orderId := some s.nextObjectId, error := none } ∧
      (placeOrder env req s).1.orders = s.orders ++ [orderDoc env req s.nextObjectId] ∧
      (placeOrder env req s).1.products pid = none ∧
      (∀ k, s.products k = none → (placeOrder env req s).1.products k = none) ∧
      (∀ k, (placeOrder env req s).1.products k
        = (s.products k).map (lowerStock (orderedQuantity k req.items))) ∧
      (placeOrder env req s).1.carts
        = s.carts.filter (fun c => decide (c.email ≠ req.buyer)) := by
  have hiter : req.cart.iterable = true :=
    iterable_of_elems_ne_nil req.cart (List.ne_nil_of_mem hmem)
  have hprod : ∀ k, (placeOrder env req s).1.products k
      = (s.products k).map (lowerStock (orderedQuantity k req.items)) := by
    intro k
    rw [placeOrder_success env req s hv hf hiter hc]
    rfl
  have hkeep : ∀ k, s.products k = none → (placeOrder env req s).1.products k = none := by
    intro k hk
    rw [hprod k, hk]
    rfl
  refine ⟨?_, ?_, hkeep pid hnone, hkeep, hprod, ?_⟩ <;>
    rw [placeOrder_success env req s hv hf hiter hc] <;> rfl

/-- Witness of C8: Ann orders 1 of product `99`, which does not exist, and 2 of
product `1`; product `1` goes from 10 to 8. -/
theorem placeOrder_unknown_product_witness :
    (annOrders (.array [lineFor 99 (some 1), lineFor 1 (some 2)])).isInvalid = false ∧
      sampleStore.products 99 = none ∧
      (placeOrder calmEnv (annOrders (.array [lineFor 99 (some 1), lineFor 1 (some 2)]))
          sampleStore).1.products 1 = some { name := "A", stock := 8 } ∧
      ((placeOrder calmEnv (annOrders (.array [lineFor 99 (some 1), lineFor 1 (some 2)]))
          sampleStore).2
        = { status := 201, message := "Order placed successfully",
            orderId := some sampleStore.nextObjectId, error := none } ∧
      (placeOrder calmEnv (annOrders (.array [lineFor 99 (some 1), lineFor 1 (some 2)]))
          sampleStore).1.orders
        = sampleStore.orders ++ [orderDoc calmEnv
            (annOrders (.array [lineFor 99 (some 1), lineFor 1 (some 2)]))
            sampleStore.nextObjectId] ∧
      (placeOrder calmEnv (annOrders (.array [lineFor 99 (some 1), lineFor 1 (some 2)]))
          sampleStore).1.products 99 = none ∧
      (∀ k, sampleStore.products k = none →
        (placeOrder calmEnv (annOrders (.array [lineFor 99 (some 1), lineFor 1 (some 2)]))
          sampleStore).1.products k = none) ∧
      (∀ k, (placeOrder calmEnv (annOrders (.array [lineFor 99 (some 1), lineFor 1 (some 2)]))
          sampleStore).1.products k
        = (sampleStore.products k).map (lowerStock (orderedQuantity k
            (annOrders (.array [lineFor 99 (some 1), lineFor 1 (some 2)])).items))) ∧
      (placeOrder calmEnv (annOrders (.array [lineFor 99 (some 1), lineFor 1 (some 2)]))
          sampleStore).1.carts
        = sampleStore.carts.filter (fun c => decide (c.email ≠
            (annOrders (.array [lineFor 99 (some 1), lineFor 1 (some 2)])).buyer))) :=
  ⟨by decide, by decide, by decide,
    placeOrder_unknown_product calmEnv
      (annOrders (.array [lineFor 99 (some 1), lineFor 1 (some 2)])) sampleStore
      (lineItemFor 99 (some 1)) 99 (by decide) (noStoreFailure_never _)
      (by unfold Convertible; decide) (by decide) rfl (by decide)⟩

/-- C10, as stated, fails. Ann's cart holds a line item whose `_id` is rejected,
then a line item of quantity 0 for product `1`. The request passes validation
and no store call throws, yet the order is answered 500 and product `1` keeps
its stock of 10 instead of losing 1. -/
theorem quantity_claim_fails_on_rejected_id :
    (annOrders (.array [lineRejected none, lineFor 1 (some 0)])).isInvalid = false ∧
      NoStoreFailure calmEnv.faults
        (annOrders (.array [lineRejected none, lineFor 1 (some 0)])).items ∧
      sampleStore.products 1 = some { name := "A", stock := 10 } ∧
      (placeOrder calmEnv (annOrders (.array [lineRejected none, lineFor 1 (some 0)]))
          sampleStore).2.status = 500 ∧
      (placeOrder calmEnv (annOrders (.array [lineRejected none, lineFor 1 (some 0)]))
          sampleStore).1.products 1 = some { name := "A", stock := 10 } ∧
      (placeOrder calmEnv (annOrders (.array [lineRejected none, lineFor 1 (some 0)]))
          sampleStore).1.products 1 ≠ some { name := "A", stock := 10 - 1 } :=
  ⟨by decide, noStoreFailure_never _, by decide, by decide, by decide, by decide⟩

/-- C10, amended. The stock change made for a line item is `-(quantity || 1)`,
whatever the sign or size of `quantity`. For a request that passes validation,
when no store call throws and `new ObjectId(item._id)` throws on no element of
the cart (each is a line item whose `_id` the constructor accepts), the order is
answered 201, and the product referenced
by the line item of index `k` ends at its previous stock, minus what the other
line items order of it, plus `-(quantity || 1)` of that line item: minus 1 when
its quantity is 0, plus `|q|` when its quantity is a negative `q`. -/
theorem placeOrder_quantity_unchecked (env : Env) (req : OrderRequest) (s : Store)
    (k : Nat) (it : LineItem) (pid : ObjectId) (p : Product)
    (hv : req.isInvalid = false) (hf : NoStoreFailure env.faults req.items)
    (hc : Convertible req.items)
    (hk : req.items[k]? = some (CartElem.item it)) (hid : it._id = RawId.valid pid)
    (hp : s.products pid = some p) :
    (placeOrder env req s).2.status = 201 ∧
      ∃ p1 : Product, (placeOrder env req s).1.products pid = some p1 ∧
        p1.stock = p.stock - orderedQuantity pid (req.items.eraseIdx k)
          + -(quantityOr1 it.quantity) ∧
        (it.quantity = some 0 →
          p1.stock = p.stock - orderedQuantity pid (req.items.eraseIdx k) - 1) ∧
        (∀ q : Int, it.quantity = some q → q < 0 →
          p1.stock = p.stock - orderedQuantity pid (req.items.eraseIdx k) + |q|) := by
  have hsucc := placeOrder_success env req s hv hf (iterable_of_getElem req k _ hk) hc
  have hprod : (placeOrder env req s).1.products pid
      = some (lowerStock (orderedQuantity pid req.items) p) := by
    rw [hsucc]
    show ((withOrder env req s).products pid).map _ = _
    have : (withOrder env req s).products pid = some p := hp
    rw [this]
    rfl
  have hsum := orderedQuantity_eraseIdx pid req.items k it hk hid
  have hstock : (lowerStock (orderedQuantity pid req.items) p).stock
      = p.stock - orderedQuantity pid (req.items.eraseIdx k) + -(quantityOr1 it.quantity) := by
    simp only [lowerStock]
    rw [hsum]
    ring
  refine ⟨by rw [hsucc]; rfl, _, hprod, hstock, ?_, ?_⟩
  · intro h0
    rw [hstock, h0]
    simp [quantityOr1]
    ring
  · intro q hq hneg
    rw [hstock, hq]
    have hq0 : q ≠ 0 := ne_of_lt hneg
    simp [quantityOr1, hq0, abs_of_neg hneg]

/-- Witness of C10: Ann orders 2 of product `1`, then -3 of product `1`; the
stock goes from 10 to 11. -/
theorem placeOrder_quantity_unchecked_witness :
    (annOrders (.array [lineFor 1 (some 2), lineFor 1 (some (-3))])).isInvalid = false ∧
      (placeOrder calmEnv (annOrders (.array [lineFor 1 (some 2), lineFor 1 (some (-3))]))
          sampleStore).1.products 1 = some { name := "A", stock := 11 } ∧
      ((placeOrder calmEnv (annOrders (.array [lineFor 1 (some 2), lineFor 1 (some (-3))]))
          sampleStore).2.status = 201 ∧
      ∃ p1 : Product,
        (placeOrder calmEnv (annOrders (.array [lineFor 1 (some 2), lineFor 1 (some (-3))]))
          sampleStore).1.products 1 = some p1 ∧
        p1.stock = ({ name := "A", stock := 10 } : Product).stock
          - orderedQuantity 1
              ((annOrders (.array [lineFor 1 (some 2), lineFor 1 (some (-3))])).items.eraseIdx 1)
          + -(quantityOr1 (lineItemFor 1 (some (-3))).quantity) ∧
        ((lineItemFor 1 (some (-3))).quantity = some 0 →
          p1.stock = ({ name := "A", stock := 10 } : Product).stock
            - orderedQuantity 1
                ((annOrders (.array [lineFor 1 (some 2),
                  lineFor 1 (some (-3))])).items.eraseIdx 1) - 1) ∧
        (∀ q : Int, (lineItemFor 1 (some (-3))).quantity = some q → q < 0 →
          p1.stock = ({ name := "A", stock := 10 } : Product).stock
            - orderedQuantity 1
                ((annOrders (.array [lineFor 1 (some 2),
                  lineFor 1 (some (-3))])).items.eraseIdx 1) + |q|)) :=
  ⟨by decide, by decide,
    placeOrder_quantity_unchecked calmEnv
      (annOrders (.array [lineFor 1 (some 2), lineFor 1 (some (-3))])) sampleStore 1
      (lineItemFor 1 (some (-3))) 1 { name := "A", stock := 10 } (by decide)
      (noStoreFailure_never _) (by unfold Convertible; decide) (by decide) rfl (by decide)⟩

end Klypto
